import Mathlib

/-!
Verification of the study-plan application (`src/app.py`) against its
natural-language specification.

The Python source is shallowly embedded below.  Conventions:

* Python/JSON values (`json.loads` results, the `st.session_state.user_progress`
  dict, list/dict operations) are modelled by the inductive type `Json`.
  The session value `st.session_state.user_progress` is an `Option Json`
  (`none` = the key is absent from `st.session_state`, i.e. a never-touched
  session).
* Python exceptions that the source can raise and does not catch are modelled
  with `Except PyError`; an operation that cannot raise is a plain function.
* `datetime.now()` results are passed in as explicit `String` parameters, one
  per `now()` call site, since the claims only compare them for equality.
* Calendar dates are modelled as `Int` day numbers; `timedelta(days = n)`
  is `+ n` and `(a - b).days` is `a - b`.  The `strftime` rendering of the
  schedule entries is presentation only and is dropped; entries keep the
  date values themselves.
* `json.dumps` / `json.loads` round-tripping is modelled at the value level:
  `export_progress_data` returns the `Json` value it serialises and
  `import_progress_data` receives `Option Json`, `none` standing for a
  `json.JSONDecodeError` (the only exception the source catches) and
  `some v` for a successful parse of the input text.
-/

/-- JSON values / Python data as stored in `st.session_state.user_progress`.
Numbers are restricted to integers, the only numeric values the program
stores (`duration_minutes` from `st.number_input` with integer bounds). -/
inductive Json where
  | null : Json
  | bool : Bool → Json
  | num : Int → Json
  | str : String → Json
  | arr : List Json → Json
  | obj : List (String × Json) → Json
deriving Repr

/-- Python exceptions relevant to the embedded code paths. -/
inductive PyError where
  | typeError : PyError
  | keyError : PyError
  | nameError : PyError
  | attributeError : PyError
deriving DecidableEq, Repr

/-- First binding of a key in a dict's field list (Python dict lookup;
`json.loads` produces unique keys, so first = only). -/
def lookupField : List (String × Json) → String → Option Json
  | [], _ => none
  | (k', v') :: rest, k => if k' = k then some v' else lookupField rest k

/-- Python dict assignment `d[k] = v`: replaces the binding of `k` in place
if present (preserving position), else appends a new binding at the end. -/
def setFields : List (String × Json) → String → Json → List (String × Json)
  | [], k, v => [(k, v)]
  | (k', v') :: rest, k, v =>
      if k' = k then (k, v) :: rest else (k', v') :: setFields rest k v

/-- Python `x in pylist` where `x` is a `str`: equality test against each
element; `str == non-str` is `False` in Python. -/
def memStr (key : String) : List Json → Bool
  | [] => false
  | Json.str s :: rest => s == key || memStr key rest
  | _ :: rest => memStr key rest

/-- Python `pylist.remove(x)` for a `str` x: removes the first element equal
to `x` (call sites guard membership, so the `ValueError` branch is dead). -/
def removeFirstStr (key : String) : List Json → List Json
  | [] => []
  | Json.str s :: rest =>
      if s == key then rest else Json.str s :: removeFirstStr key rest
  | j :: rest => j :: removeFirstStr key rest

/-- `needle` occurs as a contiguous sublist of the remaining characters. -/
def strInAux (needle : List Char) : List Char → Bool
  | [] => needle.isPrefixOf []
  | c :: cs => needle.isPrefixOf (c :: cs) || strInAux needle cs

/-- Python `needle in hay` for strings: contiguous substring test. -/
def pyInStr (needle hay : String) : Bool :=
  strInAux needle.data hay.data

/-- Python `str.lower()`, as a character map.  `Char.toLower` lowercases the
ASCII range; this agrees with Python on every character these claims
exercise (ASCII letters plus already-lowercase accented characters). -/
def pyLower (s : String) : String :=
  String.mk (s.data.map Char.toLower)

/-- Python `key in container` for a `str` key.  Defined for dicts (key test),
lists (element equality) and strings (substring); on `int`/`bool`/`None`
Python raises `TypeError: argument of type ... is not iterable`. -/
def pyContains (container : Json) (key : String) : Except PyError Bool :=
  match container with
  | Json.obj fs => Except.ok (lookupField fs key).isSome
  | Json.arr xs => Except.ok (memStr key xs)
  | Json.str s => Except.ok (pyInStr key s)
  | _ => Except.error PyError.typeError

/-- Python subscript read `d[k]` with a `str` key: dict lookup (`KeyError`
if absent); any non-dict value raises `TypeError`. -/
def pyGetItem (j : Json) (k : String) : Except PyError Json :=
  match j with
  | Json.obj fs =>
      match lookupField fs k with
      | some v => Except.ok v
      | none => Except.error PyError.keyError
  | _ => Except.error PyError.typeError

/-- Python subscript assignment `d[k] = v` with a `str` key: dict update;
any non-dict value raises `TypeError`. -/
def pySetItem (j : Json) (k : String) (v : Json) : Except PyError Json :=
  match j with
  | Json.obj fs => Except.ok (Json.obj (setFields fs k v))
  | _ => Except.error PyError.typeError

/-- Field lookup on a state value, `none` when absent or not a dict
(used only to state theorems, not by the embedded operations). -/
def jsonGetField (j : Json) (k : String) : Option Json :=
  match j with
  | Json.obj fs => lookupField fs k
  | _ => none

/-- The default `user_progress` dict created by `initialize_user_data`
(src/app.py lines 33-44).  The three `String` parameters stand for the
three `datetime.now()` call results (`now().date().isoformat()` for
`start_date`, `now().isoformat()` for `last_access` and for
`initialization_date`). -/
def defaultFields (nowDate nowAccess nowInit : String) : List (String × Json) :=
  [("start_date", Json.str nowDate),
   ("completed_resources", Json.arr []),
   ("settings", Json.obj [("notifications", Json.bool true),
                          ("theme", Json.str "light")]),
   ("last_access", Json.str nowAccess),
   ("study_sessions", Json.arr []),
   ("initialization_date", Json.str nowInit)]

def default_user_progress (nowDate nowAccess nowInit : String) : Json :=
  Json.obj (defaultFields nowDate nowAccess nowInit)

/-- `initialize_user_data` (src/app.py lines 31-44): creates the defaults if
`"user_progress" not in st.session_state`, else leaves the session as is.
Returns the session value after the call. -/
def initialize_user_data (session : Option Json) (nowDate nowAccess nowInit : String) : Json :=
  match session with
  | some p => p
  | none => default_user_progress nowDate nowAccess nowInit

/-- `add_completed_resource` (src/app.py lines 74-79): ensure initialization;
if the key is not in `completed_resources`, append it and update
`last_access` (note: `update_last_access()` is inside the `if`, so a
no-op call does not touch `last_access`).  Returns the session value
after the call. -/
def add_completed_resource (session : Option Json) (resource_key : String)
    (nowDate nowAccess nowInit nowTouch : String) : Except PyError Json := do
  let p := initialize_user_data session nowDate nowAccess nowInit
  let completed ← pyGetItem p "completed_resources"
  let present ← pyContains completed resource_key
  if present then
    Except.ok p
  else
    match completed with
    | Json.arr xs => do
        let p1 ← pySetItem p "completed_resources" (Json.arr (xs ++ [Json.str resource_key]))
        pySetItem p1 "last_access" (Json.str nowTouch)
    | _ => Except.error PyError.attributeError

/-- `remove_completed_resource` (src/app.py lines 81-86): ensure
initialization; if the key is in `completed_resources`, remove its first
occurrence and update `last_access` (again, only in the mutating branch). -/
def remove_completed_resource (session : Option Json) (resource_key : String)
    (nowDate nowAccess nowInit nowTouch : String) : Except PyError Json := do
  let p := initialize_user_data session nowDate nowAccess nowInit
  let completed ← pyGetItem p "completed_resources"
  let present ← pyContains completed resource_key
  if present then
    match completed with
    | Json.arr xs => do
        let p1 ← pySetItem p "completed_resources" (Json.arr (removeFirstStr resource_key xs))
        pySetItem p1 "last_access" (Json.str nowTouch)
    | _ => Except.error PyError.attributeError
  else
    Except.ok p

/-- `update_start_date` (src/app.py lines 88-92). -/
def update_start_date (session : Option Json) (new_date : String)
    (nowDate nowAccess nowInit nowTouch : String) : Except PyError Json := do
  let p := initialize_user_data session nowDate nowAccess nowInit
  let p1 ← pySetItem p "start_date" (Json.str new_date)
  pySetItem p1 "last_access" (Json.str nowTouch)

/-- `add_study_session` (src/app.py lines 94-103): appends
`{date, duration_minutes, subjects}` to `study_sessions` and updates
`last_access`. -/
def add_study_session (session : Option Json) (duration_minutes : Int)
    (subjects_studied : List String)
    (nowDate nowAccess nowInit nowSession nowTouch : String) : Except PyError Json := do
  let p := initialize_user_data session nowDate nowAccess nowInit
  let sessions ← pyGetItem p "study_sessions"
  match sessions with
  | Json.arr xs => do
      let entry := Json.obj
        [("date", Json.str nowSession),
         ("duration_minutes", Json.num duration_minutes),
         ("subjects", Json.arr (subjects_studied.map Json.str))]
      let p1 ← pySetItem p "study_sessions" (Json.arr (xs ++ [entry]))
      pySetItem p1 "last_access" (Json.str nowTouch)
  | _ => Except.error PyError.attributeError

/-- `is_resource_completed` (src/app.py lines 105-108): ensures
initialization (the documented read-triggers-lazy-init quirk), then a
membership test.  Returns the result together with the session value
after the call. -/
def is_resource_completed (session : Option Json) (resource_key : String)
    (nowDate nowAccess nowInit : String) : Except PyError (Bool × Json) := do
  let p := initialize_user_data session nowDate nowAccess nowInit
  let completed ← pyGetItem p "completed_resources"
  let present ← pyContains completed resource_key
  Except.ok (present, p)

/-- `export_progress_data` (src/app.py lines 51-57): if the session holds a
`user_progress` value, copy it, stamp `export_date` and serialise it;
otherwise return `"{}"` (the value `Json.obj []`).  The function never
assigns `st.session_state.user_progress`, so the second component (the
session after the call) is the unchanged input. -/
def export_progress_data (session : Option Json) (nowExport : String) :
    Except PyError (Json × Option Json) :=
  match session with
  | some p => do
      let d ← pySetItem p "export_date" (Json.str nowExport)
      Except.ok (d, session)
  | none => Except.ok (Json.obj [], session)

/-- `import_progress_data` (src/app.py lines 59-72).  `parsed` is the
`json.loads` outcome: `none` for a `json.JSONDecodeError` (caught, returns
`False`) and `some data` for a successful parse.  The three membership
tests `key in data` are Python `in` (`pyContains`), which raises
`TypeError` on non-container values — only `JSONDecodeError` is caught, so
that error escapes.  On success the whole state is replaced by `data` and
`last_access` is stamped. -/
def import_progress_data (parsed : Option Json) (session : Option Json)
    (nowTouch : String) : Except PyError (Bool × Option Json) :=
  match parsed with
  | none => Except.ok (false, session)
  | some data => do
      let b1 ← pyContains data "start_date"
      if b1 then do
        let b2 ← pyContains data "completed_resources"
        if b2 then do
          let b3 ← pyContains data "study_sessions"
          if b3 then do
            let data1 ← pySetItem data "last_access" (Json.str nowTouch)
            Except.ok (true, some data1)
          else Except.ok (false, session)
        else Except.ok (false, session)
      else Except.ok (false, session)

/-- A resource of the study-plan catalog: `{description, url}`. -/
structure Resource where
  description : String
  url : String
deriving DecidableEq, Repr

/-- `resource_type → ordered resource list` for one subject. -/
abbrev SubjectData := List (String × List Resource)

/-- `subject_name → subject data` for one stage (Etapa). -/
abbrev Subjects := List (String × SubjectData)

/-- The study-plan catalog: `stage_name → subjects`, in iteration order.
Python dict keys are unique, but no theorem below needs that invariant. -/
abbrev Catalog := List (String × Subjects)

/-- One entry of the generated schedule (src/app.py lines 141-146).  The
source renders `week_start`/`week_end` with `strftime("%d/%m/%Y")`; here
the date values themselves are kept (as day numbers). -/
structure ScheduleEntry where
  etapa : String
  dataInicio : Int
  dataFim : Int
  materias : List String
deriving DecidableEq, Repr

/-- Python truncation toward zero, as in `int(q)` for the exact value of the
quotient (floats rounding to nearest do not disturb `int` truncation for
the day counts in range here). -/
def pyTrunc (q : ℚ) : Int :=
  if 0 ≤ q then ⌊q⌋ else ⌈q⌉

/-- Python 3 `round(q)` (one-argument): round half to even. -/
def pyRound (q : ℚ) : Int :=
  if q - ⌊q⌋ < 1/2 then ⌊q⌋
  else if (1/2 : ℚ) < q - ⌊q⌋ then ⌊q⌋ + 1
  else if ⌊q⌋ % 2 = 0 then ⌊q⌋ else ⌊q⌋ + 1

/-- The loop of `create_study_schedule` (src/app.py lines 128-148).
`stageLen` is `int(avg_days_per_week)` and `lastKey` is
`list(weeks_data.keys())[-1]`, which the source recomputes (unchanged)
on every iteration.  Empty stages are skipped; each emitted entry runs
from `current` to `current + stageLen - 1`, except that a stage named
`lastKey` is forced to end at `end_date_fixed`. -/
def schedule_loop (end_date_fixed stageLen : Int) (lastKey : String) :
    Int → List (String × Subjects) → List ScheduleEntry
  | _, [] => []
  | current, (week_name, subjects) :: rest =>
      if subjects.isEmpty then
        schedule_loop end_date_fixed stageLen lastKey current rest
      else
        let week_end :=
          if week_name = lastKey then end_date_fixed else current + stageLen - 1
        { etapa := week_name, dataInicio := current, dataFim := week_end,
          materias := subjects.map Prod.fst } ::
          schedule_loop end_date_fixed stageLen lastKey (week_end + 1) rest

/-- `create_study_schedule` (src/app.py lines 111-150).
`total_days_available = (end - start).days + 1`; stages with an empty
subject dict are not counted; if no stage has subjects the plan is empty;
otherwise `int(avg_days_per_week)` is the truncated exact quotient. -/
def create_study_schedule (start_date end_date_fixed : Int) (weeks_data : Catalog) :
    List ScheduleEntry :=
  let total_days_available := end_date_fixed - start_date + 1
  let num_study_weeks :=
    ((weeks_data : List (String × Subjects)).filter (fun w => !w.2.isEmpty)).length
  if num_study_weeks = 0 then []
  else
    let stageLen := Int.tdiv total_days_available (num_study_weeks : Int)
    let lastKey := (((weeks_data : List (String × Subjects)).map Prod.fst).getLast?).getD ""
    schedule_loop end_date_fixed stageLen lastKey start_date weeks_data

/-- The resource-key f-string, shared verbatim by src/app.py lines 160, 391
and 416:
`f"{week_name}_{subject_name}_{resource_type}_{i}_{resource['description'][:20]}"`,
where `i` is the 1-based `enumerate` index and `[:20]` keeps the first 20
characters of the description. -/
def resource_key (week_name subject_name resource_type : String) (i : Nat)
    (description : String) : String :=
  week_name ++ "_" ++ subject_name ++ "_" ++ resource_type ++ "_" ++
    toString i ++ "_" ++ description.take 20

/-- The keys generated for one resource-type list by
`for i, resource in enumerate(resources, 1)` at the three call sites. -/
def subject_resource_keys (week_name subject_name resource_type : String)
    (resources : List Resource) : List String :=
  resources.enum.map
    (fun p => resource_key week_name subject_name resource_type (p.1 + 1) p.2.description)

/-- `days_float_to_days_hours` (src/app.py lines 188-191):
`days = int(days_float)`, `hours = int(round((days_float - days) * 24))`,
rendered as `f"{days}d e {hours}h"`. -/
def days_float_to_days_hours (days_float : ℚ) : String :=
  toString (pyTrunc days_float) ++ "d e " ++
    toString (pyRound ((days_float - (pyTrunc days_float : ℚ)) * 24)) ++ "h"

/-- The value bound to the name `avg_days_per_week` in the scope of `main`:
`main` (src/app.py lines 194-572) never assigns that name — it is a local
of `create_study_schedule` (line 122) — so the lookup at line 261 finds
nothing. -/
def main_avg_days_per_week_binding : Option ℚ := none

/-- Line 261 of `main`: `exit_text = days_float_to_days_hours(avg_days_per_week)`.
Evaluating an unbound name in Python raises `NameError`. -/
def main_exit_text (binding : Option ℚ) : Except PyError String :=
  match binding with
  | none => Except.error PyError.nameError
  | some q => Except.ok (days_float_to_days_hours q)

/-- One row of the search-result list built at src/app.py lines 419-427.
`concluido` keeps the glyph the source stores under `"Concluído"`. -/
structure SearchRow where
  etapa : String
  materia : String
  tipo : String
  descricao : String
  url : String
  concluido : String
  key : String
deriving DecidableEq, Repr

/-- Row construction for one enumerated resource (src/app.py lines 416-427).
`completed` is the session's `completed_resources` list;
`is_resource_completed` reduces to membership in it (the session is
already initialized when the search view runs, `main` line 196). -/
def search_row (completed : List String) (week_name subject_name resource_type : String)
    (i : Nat) (r : Resource) : SearchRow :=
  { etapa := week_name, materia := subject_name, tipo := resource_type,
    descricao := r.description, url := r.url,
    concluido :=
      if memStr (resource_key week_name subject_name resource_type (i + 1) r.description)
          (completed.map Json.str) then "✅" else "❌",
    key := resource_key week_name subject_name resource_type (i + 1) r.description }

/-- The search view (src/app.py lines 402-427): with a falsy (empty) term no
scan runs (`if search_term:`); otherwise the catalog is scanned in
iteration order and a row is appended whenever
`search_term.lower() in resource['description'].lower()`. -/
def search_resources (study_data : Catalog) (completed : List String) (term : String) :
    List SearchRow :=
  if term = "" then []
  else
    (study_data : List (String × Subjects)).flatMap (fun w =>
      (w.2 : List (String × SubjectData)).flatMap (fun s =>
        (s.2 : List (String × List Resource)).flatMap (fun t =>
          t.2.enum.filterMap (fun p =>
            if pyInStr (pyLower term) (pyLower p.2.description) then
              some (search_row completed w.1 s.1 t.1 p.1 p.2)
            else none))))

/-- Every resource of the catalog as a search row, in catalog iteration
order (stage, then subject, then resource-type, then position). -/
def catalog_rows (study_data : Catalog) (completed : List String) : List SearchRow :=
  (study_data : List (String × Subjects)).flatMap (fun w =>
    (w.2 : List (String × SubjectData)).flatMap (fun s =>
      (s.2 : List (String × List Resource)).flatMap (fun t =>
        t.2.enum.map (fun p => search_row completed w.1 s.1 t.1 p.1 p.2))))

/-! ## Helper lemmas about the embedded dict and list operations -/

theorem lookupField_setFields (fs : List (String × Json)) (k : String) (v : Json) (k' : String) :
    lookupField (setFields fs k v) k' = if k' = k then some v else lookupField fs k' := by
  induction fs with
  | nil =>
      simp only [setFields, lookupField]
      by_cases h : k = k'
      · subst h; simp
      · rw [if_neg h, if_neg (fun he : k' = k => h he.symm)]
  | cons hd tl ih =>
      obtain ⟨a, b⟩ := hd
      by_cases hak : a = k
      · subst hak
        simp only [setFields, if_pos rfl, lookupField]
        by_cases h : a = k'
        · subst h; simp
        · rw [if_neg h, if_neg (fun he : k' = a => h he.symm), if_neg h]
      · simp only [setFields, if_neg hak, lookupField]
        by_cases h2 : a = k'
        · rw [if_pos h2, if_neg (fun he : k' = k => hak (h2.trans he)), if_pos h2]
        · rw [if_neg h2, ih]
          by_cases h3 : k' = k
          · rw [if_pos h3, if_pos h3]
          · rw [if_neg h3, if_neg h3, if_neg h2]

theorem memStr_append (k : String) (xs ys : List Json) :
    memStr k (xs ++ ys) = (memStr k xs || memStr k ys) := by
  induction xs with
  | nil => rfl
  | cons x xs ih => cases x <;> simp [memStr, ih, Bool.or_assoc]

theorem removeFirstStr_append_self (k : String) (xs : List Json) (h : memStr k xs = false) :
    removeFirstStr k (xs ++ [Json.str k]) = xs := by
  induction xs with
  | nil => simp [removeFirstStr]
  | cons x xs ih =>
      cases x with
      | str s =>
          simp only [memStr, Bool.or_eq_false_iff] at h
          simp [List.cons_append, removeFirstStr, h.1, ih h.2]
      | null => simp only [memStr] at h; simp [removeFirstStr, ih h]
      | bool b => simp only [memStr] at h; simp [removeFirstStr, ih h]
      | num n => simp only [memStr] at h; simp [removeFirstStr, ih h]
      | arr l => simp only [memStr] at h; simp [removeFirstStr, ih h]
      | obj l => simp only [memStr] at h; simp [removeFirstStr, ih h]

/-! ## Behaviour of the completion toggles (shared helper lemmas) -/

theorem add_completed_mem (fs : List (String × Json)) (elems : List Json)
    (k d a i n : String)
    (hc : lookupField fs "completed_resources" = some (Json.arr elems))
    (h : memStr k elems = true) :
    add_completed_resource (some (Json.obj fs)) k d a i n = Except.ok (Json.obj fs) := by
  simp [add_completed_resource, initialize_user_data, pyGetItem, hc, pyContains, h,
    Bind.bind, Except.bind]

theorem add_completed_not_mem (fs : List (String × Json)) (elems : List Json)
    (k d a i n : String)
    (hc : lookupField fs "completed_resources" = some (Json.arr elems))
    (h : memStr k elems = false) :
    add_completed_resource (some (Json.obj fs)) k d a i n =
      Except.ok (Json.obj (setFields
        (setFields fs "completed_resources" (Json.arr (elems ++ [Json.str k])))
        "last_access" (Json.str n))) := by
  simp [add_completed_resource, initialize_user_data, pyGetItem, hc, pyContains, h, pySetItem,
    Bind.bind, Except.bind]

theorem remove_completed_mem (fs : List (String × Json)) (elems : List Json)
    (k d a i n : String)
    (hc : lookupField fs "completed_resources" = some (Json.arr elems))
    (h : memStr k elems = true) :
    remove_completed_resource (some (Json.obj fs)) k d a i n =
      Except.ok (Json.obj (setFields
        (setFields fs "completed_resources" (Json.arr (removeFirstStr k elems)))
        "last_access" (Json.str n))) := by
  simp [remove_completed_resource, initialize_user_data, pyGetItem, hc, pyContains, h, pySetItem,
    Bind.bind, Except.bind]

theorem remove_completed_not_mem (fs : List (String × Json)) (elems : List Json)
    (k d a i n : String)
    (hc : lookupField fs "completed_resources" = some (Json.arr elems))
    (h : memStr k elems = false) :
    remove_completed_resource (some (Json.obj fs)) k d a i n = Except.ok (Json.obj fs) := by
  simp [remove_completed_resource, initialize_user_data, pyGetItem, hc, pyContains, h,
    Bind.bind, Except.bind]

/-- Fields of a concrete, already-populated session state: resource `"k"`
completed, `last_access = "OLD"`. -/
def sampleFields : List (String × Json) :=
  [("start_date", Json.str "2025-01-01"),
   ("completed_resources", Json.arr [Json.str "k"]),
   ("settings", Json.obj [("notifications", Json.bool true),
                          ("theme", Json.str "light")]),
   ("last_access", Json.str "OLD"),
   ("study_sessions", Json.arr []),
   ("initialization_date", Json.str "I0")]

def sampleState : Json := Json.obj sampleFields

/-- C3 (code bug): the backup text `5` is well-formed JSON, so `json.loads`
succeeds with the int `5`; the membership test `"start_date" in 5` then
raises `TypeError`, which `import_progress_data` does not catch (only
`json.JSONDecodeError` is).  A genuine parse failure, by contrast, is
caught and returns `False` with the state untouched, as the claim demands. -/
theorem import_wellformed_nonobject_raises_typeerror :
    import_progress_data (some (Json.num 5)) (some sampleState) "N" =
      Except.error PyError.typeError ∧
    import_progress_data none (some sampleState) "N" = Except.ok (false, some sampleState) :=
  ⟨rfl, rfl⟩

/-- C9 counterexample: `export_progress_data` is a listed public operation,
but on a never-touched session it does not initialize anything — it
returns the `"{}"` export and the session value stays absent, so after
this public operation the ProgressState does *not* exist with defaults. -/
theorem export_does_not_initialize :
    export_progress_data none "T" = Except.ok (Json.obj [], (none : Option Json)) ∧
    (none : Option Json) ≠ some (default_user_progress "T" "T" "T") :=
  ⟨rfl, by simp⟩

/-- C9 (amended): every listed Progress State Engine operation except
`exportState` ensures initialization as its first step: on a
never-touched session, `isComplete` succeeds (returning `false`) and
installs the defaults, and `markComplete`, `markIncomplete`,
`setStartDate` and `logStudySession` succeed with the defaults-derived
state; `exportState` instead returns the empty export `"{}"` and leaves
the session untouched (uninitialized). -/
theorem ops_initialize_except_export (k nd sNow : String) (dur : Int) (subj : List String)
    (d a i n : String) :
    is_resource_completed none k d a i = Except.ok (false, default_user_progress d a i) ∧
    add_completed_resource none k d a i n = Except.ok (Json.obj
      [("start_date", Json.str d),
       ("completed_resources", Json.arr [Json.str k]),
       ("settings", Json.obj [("notifications", Json.bool true),
                              ("theme", Json.str "light")]),
       ("last_access", Json.str n),
       ("study_sessions", Json.arr []),
       ("initialization_date", Json.str i)]) ∧
    remove_completed_resource none k d a i n = Except.ok (default_user_progress d a i) ∧
    update_start_date none nd d a i n = Except.ok (Json.obj
      [("start_date", Json.str nd),
       ("completed_resources", Json.arr []),
       ("settings", Json.obj [("notifications", Json.bool true),
                              ("theme", Json.str "light")]),
       ("last_access", Json.str n),
       ("study_sessions", Json.arr []),
       ("initialization_date", Json.str i)]) ∧
    add_study_session none dur subj d a i sNow n = Except.ok (Json.obj
      [("start_date", Json.str d),
       ("completed_resources", Json.arr []),
       ("settings", Json.obj [("notifications", Json.bool true),
                              ("theme", Json.str "light")]),
       ("last_access", Json.str n),
       ("study_sessions", Json.arr
         [Json.obj [("date", Json.str sNow),
                    ("duration_minutes", Json.num dur),
                    ("subjects", Json.arr (subj.map Json.str))]]),
       ("initialization_date", Json.str i)]) ∧
    export_progress_data none n = Except.ok (Json.obj [], (none : Option Json)) :=
  ⟨rfl, rfl, rfl, rfl, rfl, rfl⟩

/-- C8 counterexample: marking an already-completed key is a no-op that does
*not* touch `last_access` — `update_last_access()` sits inside the
mutating branch of `add_completed_resource` — so "each call updates
lastAccessTimestamp, including the no-op cases" fails on this input. -/
theorem noop_mark_skips_last_access :
    add_completed_resource (some sampleState) "k" "D" "A" "I" "NEW" = Except.ok sampleState ∧
    jsonGetField sampleState "last_access" = some (Json.str "OLD") ∧
    Json.str "OLD" ≠ Json.str "NEW" :=
  ⟨rfl, rfl, by simp⟩

/-- C8 (amended): `markComplete`/`markIncomplete` never raise, also in the
no-op cases; they update `last_access` exactly when the completed set
changes (new key added / present key removed), and leave the state —
including `last_access` — entirely unchanged in the no-op cases. -/
theorem mark_unmark_touch_last_access_iff_mutating (fs : List (String × Json))
    (elems : List Json) (k d a i n : String)
    (hc : lookupField fs "completed_resources" = some (Json.arr elems)) :
    (memStr k elems = true →
      add_completed_resource (some (Json.obj fs)) k d a i n = Except.ok (Json.obj fs)) ∧
    (memStr k elems = false →
      add_completed_resource (some (Json.obj fs)) k d a i n =
        Except.ok (Json.obj (setFields
          (setFields fs "completed_resources" (Json.arr (elems ++ [Json.str k])))
          "last_access" (Json.str n)))) ∧
    (memStr k elems = true →
      remove_completed_resource (some (Json.obj fs)) k d a i n =
        Except.ok (Json.obj (setFields
          (setFields fs "completed_resources" (Json.arr (removeFirstStr k elems)))
          "last_access" (Json.str n)))) ∧
    (memStr k elems = false →
      remove_completed_resource (some (Json.obj fs)) k d a i n = Except.ok (Json.obj fs)) :=
  ⟨fun h => add_completed_mem fs elems k d a i n hc h,
   fun h => add_completed_not_mem fs elems k d a i n hc h,
   fun h => remove_completed_mem fs elems k d a i n hc h,
   fun h => remove_completed_not_mem fs elems k d a i n hc h⟩

/-- C8 witness: both no-op cases on `sampleState` (key `"k"` present), and
the mutating add case for the fresh key `"j"`. -/
theorem mark_unmark_touch_last_access_witness :
    add_completed_resource (some sampleState) "k" "D" "A" "I" "N" = Except.ok sampleState ∧
    add_completed_resource (some sampleState) "j" "D" "A" "I" "N" =
      Except.ok (Json.obj (setFields
        (setFields sampleFields
          "completed_resources" (Json.arr [Json.str "k", Json.str "j"]))
        "last_access" (Json.str "N"))) :=
  ⟨(mark_unmark_touch_last_access_iff_mutating sampleFields [Json.str "k"]
      "k" "D" "A" "I" "N" rfl).1 rfl,
   (mark_unmark_touch_last_access_iff_mutating sampleFields [Json.str "k"]
      "j" "D" "A" "I" "N" rfl).2.1 rfl⟩

/-- C5 counterexample: when `"k"` is *already* completed,
`markComplete("k")` is a no-op and `markIncomplete("k")` then removes the
pre-existing key, so the pair does not restore the completed set: it ends
empty while it started as `["k"]`. -/
theorem mark_unmark_pair_drops_preexisting_key :
    ((add_completed_resource (some sampleState) "k" "D" "A" "I" "N1").bind
        (fun st1 => remove_completed_resource (some st1) "k" "D2" "A2" "I2" "N2")).map
        (fun st2 => jsonGetField st2 "completed_resources") =
      Except.ok (some (Json.arr [])) ∧
    jsonGetField sampleState "completed_resources" = some (Json.arr [Json.str "k"]) ∧
    some (Json.arr ([] : List Json)) ≠ some (Json.arr [Json.str "k"]) :=
  ⟨rfl, rfl, by simp⟩

/-- C5 (amended): `markComplete(k); markComplete(k)` always equals a single
`markComplete(k)` (the second call returns the state of the first
unchanged); and `markComplete(k); markIncomplete(k)` restores the
completed set to its prior value whenever `k` was *not* already
completed (if it was, the pair removes the pre-existing key). -/
theorem mark_idempotent_unmark_restores (fs : List (String × Json)) (elems : List Json)
    (k d a i n d2 a2 i2 n2 : String)
    (hc : lookupField fs "completed_resources" = some (Json.arr elems)) :
    ((add_completed_resource (some (Json.obj fs)) k d a i n).bind
        (fun st1 => add_completed_resource (some st1) k d2 a2 i2 n2)) =
      add_completed_resource (some (Json.obj fs)) k d a i n ∧
    (memStr k elems = false →
      ((add_completed_resource (some (Json.obj fs)) k d a i n).bind
          (fun st1 => remove_completed_resource (some st1) k d2 a2 i2 n2)).map
          (fun st2 => jsonGetField st2 "completed_resources") =
        Except.ok (some (Json.arr elems))) := by
  cases hmem : memStr k elems with
  | true =>
      constructor
      · rw [add_completed_mem fs elems k d a i n hc hmem]
        show add_completed_resource (some (Json.obj fs)) k d2 a2 i2 n2 = _
        rw [add_completed_mem fs elems k d2 a2 i2 n2 hc hmem]
      · intro hfalse
        exact Bool.noConfusion hfalse
  | false =>
      have hc1 : lookupField
          (setFields (setFields fs "completed_resources" (Json.arr (elems ++ [Json.str k])))
            "last_access" (Json.str n)) "completed_resources" =
          some (Json.arr (elems ++ [Json.str k])) := by
        rw [lookupField_setFields, if_neg (by decide), lookupField_setFields, if_pos rfl]
      have hmem1 : memStr k (elems ++ [Json.str k]) = true := by
        simp [memStr_append, memStr]
      constructor
      · rw [add_completed_not_mem fs elems k d a i n hc hmem]
        show add_completed_resource _ k d2 a2 i2 n2 = _
        rw [add_completed_mem _ _ k d2 a2 i2 n2 hc1 hmem1]
      · intro _
        rw [add_completed_not_mem fs elems k d a i n hc hmem]
        show (remove_completed_resource _ k d2 a2 i2 n2).map _ = _
        rw [remove_completed_mem _ _ k d2 a2 i2 n2 hc1 hmem1,
          removeFirstStr_append_self k elems hmem]
        show Except.ok (jsonGetField _ "completed_resources") = _
        rw [jsonGetField, lookupField_setFields, if_neg (by decide),
          lookupField_setFields, if_pos rfl]

/-- C5 witness: on `sampleState` with the fresh key `"j"`, double-mark equals
single mark, and mark-then-unmark restores the completed set `["k"]`. -/
theorem mark_idempotent_unmark_restores_witness :
    ((add_completed_resource (some (Json.obj sampleFields)) "j" "D" "A" "I" "N").bind
        (fun st1 => add_completed_resource (some st1) "j" "D2" "A2" "I2" "N2")) =
      add_completed_resource (some (Json.obj sampleFields)) "j" "D" "A" "I" "N" ∧
    ((add_completed_resource (some (Json.obj sampleFields)) "j" "D" "A" "I" "N").bind
        (fun st1 => remove_completed_resource (some st1) "j" "D2" "A2" "I2" "N2")).map
        (fun st2 => jsonGetField st2 "completed_resources") =
      Except.ok (some (Json.arr [Json.str "k"])) :=
  ⟨(mark_idempotent_unmark_restores sampleFields [Json.str "k"]
      "j" "D" "A" "I" "N" "D2" "A2" "I2" "N2" rfl).1,
   (mark_idempotent_unmark_restores sampleFields [Json.str "k"]
      "j" "D" "A" "I" "N" "D2" "A2" "I2" "N2" rfl).2 rfl⟩

/-- C2: importing a parsed backup document (a JSON object) that lacks at
least one of the required fields `start_date`, `completed_resources`,
`study_sessions` returns `False` and leaves the current session value
(whatever it is, even uninitialized) exactly unchanged. -/
theorem import_missing_required_field_fails (fs : List (String × Json))
    (session : Option Json) (n : String)
    (h : lookupField fs "start_date" = none ∨ lookupField fs "completed_resources" = none ∨
        lookupField fs "study_sessions" = none) :
    import_progress_data (some (Json.obj fs)) session n = Except.ok (false, session) := by
  rcases h with h | h | h <;>
    simp [import_progress_data, pyContains, Bind.bind, Except.bind, h]

/-- C2 witness: a document holding only `start_date` is rejected and the
session (here `sampleState`) is untouched. -/
theorem import_missing_required_field_fails_witness :
    import_progress_data (some (Json.obj [("start_date", Json.str "2025-01-01")]))
        (some sampleState) "N" = Except.ok (false, some sampleState) :=
  import_missing_required_field_fails [("start_date", Json.str "2025-01-01")]
    (some sampleState) "N" (Or.inr (Or.inl rfl))

/-- C4: for any initialized ProgressState (a dict that has the three
required fields — true of the defaults and of every state the engine
produces), importing the export succeeds with `True` and reproduces the
state: `start_date`, `completed_resources` and `study_sessions` are
unchanged, and in fact every field other than `last_access` and
`export_date` is unchanged; only those two (the refreshed access stamp
and the stamped export timestamp) may differ. -/
theorem import_export_roundtrip (fs : List (String × Json)) (nExp nAcc : String)
    (h1 : (lookupField fs "start_date").isSome = true)
    (h2 : (lookupField fs "completed_resources").isSome = true)
    (h3 : (lookupField fs "study_sessions").isSome = true) :
    export_progress_data (some (Json.obj fs)) nExp =
      Except.ok (Json.obj (setFields fs "export_date" (Json.str nExp)),
        some (Json.obj fs)) ∧
    import_progress_data (some (Json.obj (setFields fs "export_date" (Json.str nExp))))
        (some (Json.obj fs)) nAcc =
      Except.ok (true, some (Json.obj
        (setFields (setFields fs "export_date" (Json.str nExp))
          "last_access" (Json.str nAcc)))) ∧
    (∀ fld : String, fld ≠ "last_access" → fld ≠ "export_date" →
      lookupField (setFields (setFields fs "export_date" (Json.str nExp))
          "last_access" (Json.str nAcc)) fld = lookupField fs fld) ∧
    lookupField (setFields (setFields fs "export_date" (Json.str nExp))
        "last_access" (Json.str nAcc)) "start_date" = lookupField fs "start_date" ∧
    lookupField (setFields (setFields fs "export_date" (Json.str nExp))
        "last_access" (Json.str nAcc)) "completed_resources" =
      lookupField fs "completed_resources" ∧
    lookupField (setFields (setFields fs "export_date" (Json.str nExp))
        "last_access" (Json.str nAcc)) "study_sessions" = lookupField fs "study_sessions" := by
  have hpres : ∀ fld : String, fld ≠ "last_access" → fld ≠ "export_date" →
      lookupField (setFields (setFields fs "export_date" (Json.str nExp))
        "last_access" (Json.str nAcc)) fld = lookupField fs fld := by
    intro fld hf1 hf2
    rw [lookupField_setFields, if_neg hf1, lookupField_setFields, if_neg hf2]
  refine ⟨rfl, ?_, hpres, hpres _ (by decide) (by decide), hpres _ (by decide) (by decide),
    hpres _ (by decide) (by decide)⟩
  simp [import_progress_data, pyContains, Bind.bind, Except.bind, pySetItem,
    lookupField_setFields, h1, h2, h3]

/-- C4 witness: round trip of the default (freshly initialized) state. -/
theorem import_export_roundtrip_witness :
    import_progress_data (some (Json.obj (setFields (defaultFields "D" "A" "I")
        "export_date" (Json.str "E"))))
        (some (Json.obj (defaultFields "D" "A" "I"))) "N" =
      Except.ok (true, some (Json.obj
        (setFields (setFields (defaultFields "D" "A" "I") "export_date" (Json.str "E"))
          "last_access" (Json.str "N")))) :=
  (import_export_roundtrip (defaultFields "D" "A" "I") "E" "N" rfl rfl rfl).2.1

/-! ## Schedule generator lemmas -/

/-- If the loop's output is non-empty, its first entry starts at `current`. -/
theorem schedule_loop_head_start (e len : Int) (lk : String) (ws : List (String × Subjects)) :
    ∀ (current : Int) (entry : ScheduleEntry),
      (schedule_loop e len lk current ws).head? = some entry → entry.dataInicio = current := by
  induction ws with
  | nil => intro current entry h; simp [schedule_loop] at h
  | cons w rest ih =>
      obtain ⟨wn, subs⟩ := w
      intro current entry h
      by_cases hemp : subs.isEmpty
      · rw [schedule_loop, if_pos hemp] at h
        exact ih current entry h
      · rw [schedule_loop, if_neg hemp] at h
        simp only [List.head?_cons, Option.some.injEq] at h
        rw [← h]

/-- Consecutive entries produced by the loop are contiguous. -/
theorem schedule_loop_chain (e len : Int) (lk : String) (ws : List (String × Subjects)) :
    ∀ current : Int, List.Chain' (fun x y => y.dataInicio = x.dataFim + 1)
      (schedule_loop e len lk current ws) := by
  induction ws with
  | nil => intro current; simp [schedule_loop]
  | cons w rest ih =>
      obtain ⟨wn, subs⟩ := w
      intro current
      by_cases hemp : subs.isEmpty
      · rw [schedule_loop, if_pos hemp]; exact ih current
      · rw [schedule_loop, if_neg hemp]
        refine List.chain'_cons'.2 ⟨?_, ih _⟩
        intro y hy
        rw [schedule_loop_head_start e len lk rest _ y hy]

/-- If the catalog ends with a non-empty stage whose name is the forced
`lastKey`, the loop output is non-empty and its last entry ends exactly
at `end_date_fixed`. -/
theorem schedule_loop_last (e len : Int) (lk : String) (subs : Subjects)
    (hsub : subs.isEmpty = false) (ws : List (String × Subjects)) :
    ∀ current : Int,
      (schedule_loop e len lk current (ws ++ [(lk, subs)])).getLast?.map
        ScheduleEntry.dataFim = some e := by
  induction ws with
  | nil =>
      intro current
      rw [List.nil_append, schedule_loop]
      rw [if_neg (by simp [hsub]), if_pos rfl]
      rfl
  | cons w rest ih =>
      obtain ⟨wn, wsubs⟩ := w
      intro current
      by_cases hemp : wsubs.isEmpty
      · rw [List.cons_append, schedule_loop, if_pos hemp]
        exact ih current
      · rw [List.cons_append, schedule_loop, if_neg hemp]
        have htail := ih ((if wn = lk then e else current + len - 1) + 1)
        cases htl : schedule_loop e len lk
            ((if wn = lk then e else current + len - 1) + 1) (rest ++ [(lk, subs)]) with
        | nil => rw [htl] at htail; simp at htail
        | cons t ts =>
            rw [htl] at htail
            simp only [htl]
            rw [List.getLast?_cons_cons]
            exact htail

/-- A non-empty loop output starts at `current`, stated through `head?`. -/
theorem schedule_loop_head_start_map (e len : Int) (lk : String)
    (ws : List (String × Subjects)) (current : Int)
    (hne : schedule_loop e len lk current ws ≠ []) :
    (schedule_loop e len lk current ws).head?.map ScheduleEntry.dataInicio = some current := by
  cases hres : schedule_loop e len lk current ws with
  | nil => exact absurd hres hne
  | cons t ts =>
      have ht := schedule_loop_head_start e len lk ws current t (by rw [hres]; rfl)
      simp [ht]

/-- C1 (amended): for every start date, fixed end date and catalog whose
*last* stage is non-empty (which implies at least one non-empty stage),
the schedule's first entry starts at the start date, its last entry ends
exactly at the fixed end date, and consecutive entries are contiguous.
(When the last stage of the catalog is empty the forced end-date
adjustment never fires — see the counterexample — so the claim is
amended with this hypothesis.) -/
theorem schedule_covers_interval (s e : Int) (ws : List (String × Subjects))
    (lk : String) (subs : Subjects) (hsub : subs ≠ []) :
    (create_study_schedule s e (ws ++ [(lk, subs)])).head?.map ScheduleEntry.dataInicio
        = some s ∧
    (create_study_schedule s e (ws ++ [(lk, subs)])).getLast?.map ScheduleEntry.dataFim
        = some e ∧
    List.Chain' (fun x y => y.dataInicio = x.dataFim + 1)
      (create_study_schedule s e (ws ++ [(lk, subs)])) := by
  have hsub' : subs.isEmpty = false := by
    cases subs with
    | nil => exact absurd rfl hsub
    | cons a l => rfl
  have hnum : ¬((ws ++ [(lk, subs)]).filter (fun w => !w.2.isEmpty)).length = 0 := by
    simp [List.filter_append, hsub']
  have hlk : (((ws ++ [(lk, subs)]).map Prod.fst).getLast?).getD "" = lk := by
    simp
  have hunfold : create_study_schedule s e (ws ++ [(lk, subs)]) =
      schedule_loop e
        (Int.tdiv (e - s + 1)
          ((((ws ++ [(lk, subs)]).filter (fun w => !w.2.isEmpty)).length : Nat) : Int))
        lk s (ws ++ [(lk, subs)]) := by
    simp only [create_study_schedule]
    rw [if_neg hnum, hlk]
  refine ⟨?_, ?_, ?_⟩
  · rw [hunfold]
    apply schedule_loop_head_start_map
    intro hnil
    have hlast := schedule_loop_last e
      (Int.tdiv (e - s + 1)
        ((((ws ++ [(lk, subs)]).filter (fun w => !w.2.isEmpty)).length : Nat) : Int))
      lk subs hsub' ws s
    rw [hnil] at hlast
    simp at hlast
  · rw [hunfold]
    exact schedule_loop_last e _ lk subs hsub' ws s
  · rw [hunfold]
    exact schedule_loop_chain e _ lk (ws ++ [(lk, subs)]) s

/-- C1 witness: start 0, end 6, two non-empty stages: entries `[0,2]` and
`[3,6]` (the last forced to the end date). -/
theorem schedule_covers_interval_witness :
    (create_study_schedule 0 6 [("A", [("s", [])]), ("B", [("t", [])])]).head?.map
        ScheduleEntry.dataInicio = some 0 ∧
    (create_study_schedule 0 6 [("A", [("s", [])]), ("B", [("t", [])])]).getLast?.map
        ScheduleEntry.dataFim = some 6 ∧
    List.Chain' (fun x y => y.dataInicio = x.dataFim + 1)
      (create_study_schedule 0 6 [("A", [("s", [])]), ("B", [("t", [])])]) :=
  schedule_covers_interval 0 6 [("A", [("s", [])])] "B" [("t", [])] (by simp)

/-- C1 counterexample: the end-date adjustment tests
`week_name == list(weeks_data.keys())[-1]`, the last key of *all* stages;
with a trailing empty stage `"C"` that key belongs to a skipped stage, so
no entry is forced to the end date: with start 0, end 6 and non-empty
stages `"A", "B"`, the plan is `[0,2], [3,5]` and the last entry ends at
5, not at the fixed end date 6. -/
theorem schedule_last_entry_misses_end_date :
    create_study_schedule 0 6 [("A", [("s", [])]), ("B", [("t", [])]), ("C", [])] =
      [{ etapa := "A", dataInicio := 0, dataFim := 2, materias := ["s"] },
       { etapa := "B", dataInicio := 3, dataFim := 5, materias := ["t"] }] ∧
    (create_study_schedule 0 6
        [("A", [("s", [])]), ("B", [("t", [])]), ("C", [])]).getLast?.map
      ScheduleEntry.dataFim = some 5 ∧
    (5 : Int) ≠ 6 :=
  ⟨rfl, rfl, by decide⟩

/-- C6: the resource key is a pure function of
`(stage, subject, resource-type, 1-based position, description)`; two
calls with identical arguments give the identical string; the description
component is the 20-character prefix, so descriptions agreeing on their
first 20 characters give the same key; and the position component used at
the call sites is the resource's 1-based index in its resource-type list. -/
theorem resource_key_deterministic_truncated_positional (w s t : String) (i : Nat)
    (d d2 : String) (rs : List Resource) (j : Nat) (r : Resource)
    (hpre : d.take 20 = d2.take 20) (hj : rs[j]? = some r) :
    resource_key w s t i d = resource_key w s t i d ∧
    resource_key w s t i d = resource_key w s t i d2 ∧
    (subject_resource_keys w s t rs)[j]? =
      some (resource_key w s t (j + 1) r.description) := by
  refine ⟨rfl, ?_, ?_⟩
  · rw [resource_key, resource_key, hpre]
  · simp [subject_resource_keys, List.getElem?_map, List.getElem?_enum, hj]

set_option maxRecDepth 4000 in
/-- C6 witness: two descriptions sharing their first 20 characters collide,
and the first resource of a list gets position 1. -/
theorem resource_key_witness :
    resource_key "W" "S" "T" 1 "aaaaaaaaaaaaaaaaaaaaXX" =
      resource_key "W" "S" "T" 1 "aaaaaaaaaaaaaaaaaaaaYY" ∧
    (subject_resource_keys "W" "S" "T" [{ description := "desc", url := "u" }])[0]? =
      some (resource_key "W" "S" "T" 1 "desc") :=
  ⟨(resource_key_deterministic_truncated_positional "W" "S" "T" 1
      "aaaaaaaaaaaaaaaaaaaaXX" "aaaaaaaaaaaaaaaaaaaaYY"
      [{ description := "desc", url := "u" }] 0 { description := "desc", url := "u" }
      (by decide) rfl).2.1,
   (resource_key_deterministic_truncated_positional "W" "S" "T" 1
      "aaaaaaaaaaaaaaaaaaaaXX" "aaaaaaaaaaaaaaaaaaaaYY"
      [{ description := "desc", url := "u" }] 0 { description := "desc", url := "u" }
      (by decide) rfl).2.2⟩

/-- C7 (code bug): line 261 of `main` evaluates
`days_float_to_days_hours(avg_days_per_week)`, but `avg_days_per_week`
is bound only inside `create_study_schedule`, never in `main`, so the
statement raises `NameError` whenever a non-empty schedule reaches it —
the duration metric is never produced.  The helper itself does format a
fractional day count as whole days plus rounded remainder hours: on the
spec's concrete scenario, 277 days over 5 stages, it yields "55d e 10h". -/
theorem duration_metric_name_error :
    main_exit_text main_avg_days_per_week_binding = Except.error PyError.nameError ∧
    days_float_to_days_hours (277 / 5 : ℚ) = "55d e 10h" := by
  constructor
  · rfl
  · have hfloor : (⌊(277 / 5 : ℚ)⌋ : Int) = 55 := by
      rw [Int.floor_eq_iff]; norm_num
    have htr : pyTrunc (277 / 5 : ℚ) = 55 := by
      rw [pyTrunc, if_pos (by norm_num), hfloor]
    have hfloor2 : (⌊(48 / 5 : ℚ)⌋ : Int) = 9 := by
      rw [Int.floor_eq_iff]; norm_num
    have hrnd : pyRound (48 / 5 : ℚ) = 10 := by
      simp only [pyRound, hfloor2]
      norm_num
    rw [days_float_to_days_hours, htr,
      show ((277 / 5 : ℚ) - ((55 : Int) : ℚ)) * 24 = 48 / 5 by norm_num, hrnd]
    decide

/-! ## Search lemmas -/

theorem filter_flatMap_comm {α β : Type} (l : List α) (f : α → List β) (p : β → Bool) :
    (l.flatMap f).filter p = l.flatMap (fun a => (f a).filter p) := by
  induction l with
  | nil => rfl
  | cons a l ih => simp [List.flatMap_cons, List.filter_append, ih]

theorem filterMap_guard_eq_filter_map {α β : Type} (l : List α) (g : α → β)
    (q : α → Bool) (p : β → Bool) (hqp : ∀ x, p (g x) = q x) :
    l.filterMap (fun x => if q x then some (g x) else none) = (l.map g).filter p := by
  induction l with
  | nil => rfl
  | cons a l ih =>
      simp only [List.filterMap_cons, List.map_cons, List.filter_cons, hqp]
      cases h : q a with
      | true => simp [h, ih]
      | false => simp [h, ih]

/-- C10: the search view returns exactly the catalog resources whose
description contains the term as a case-insensitive substring, in
catalog iteration order (stage, subject, resource-type, position), each
annotated with its completion flag; an empty term yields no results.
The final clause is the spec's concrete scenario: term `"PDF"` against
`"Questões em PDF"` and `"Apostila em Word"` returns exactly the first,
flagged complete because its derived key is in the completed set. -/
theorem search_filters_catalog_rows (study_data : Catalog) (completed : List String)
    (term : String) (hterm : term ≠ "") :
    search_resources study_data completed "" = [] ∧
    search_resources study_data completed term =
      (catalog_rows study_data completed).filter
        (fun row => pyInStr (pyLower term) (pyLower row.descricao)) ∧
    search_resources
        [("Etapa 1", [("Português", [("Material",
          [{ description := "Questões em PDF", url := "u1" },
           { description := "Apostila em Word", url := "u2" }])])])]
        ["Etapa 1_Português_Material_1_Questões em PDF"] "PDF" =
      [{ etapa := "Etapa 1", materia := "Português", tipo := "Material",
         descricao := "Questões em PDF", url := "u1", concluido := "✅",
         key := "Etapa 1_Português_Material_1_Questões em PDF" }] := by
  refine ⟨rfl, ?_, rfl⟩
  rw [search_resources, if_neg hterm, catalog_rows]
  rw [filter_flatMap_comm]
  refine List.flatMap_congr (fun w _ => ?_)
  rw [filter_flatMap_comm]
  refine List.flatMap_congr (fun s _ => ?_)
  rw [filter_flatMap_comm]
  refine List.flatMap_congr (fun t _ => ?_)
  exact filterMap_guard_eq_filter_map t.2.enum
    (fun x => search_row completed w.1 s.1 t.1 x.1 x.2)
    (fun x => pyInStr (pyLower term) (pyLower x.2.description))
    (fun row => pyInStr (pyLower term) (pyLower row.descricao))
    (fun x => rfl)

/-- C10 witness: the filter characterization applied to the scenario
catalog with the non-empty term `"PDF"`. -/
theorem search_filters_catalog_rows_witness :
    search_resources
        [("Etapa 1", [("Português", [("Material",
          [{ description := "Questões em PDF", url := "u1" },
           { description := "Apostila em Word", url := "u2" }])])])]
        ["Etapa 1_Português_Material_1_Questões em PDF"] "PDF" =
      (catalog_rows
        [("Etapa 1", [("Português", [("Material",
          [{ description := "Questões em PDF", url := "u1" },
           { description := "Apostila em Word", url := "u2" }])])])]
        ["Etapa 1_Português_Material_1_Questões em PDF"]).filter
        (fun row => pyInStr (pyLower "PDF") (pyLower row.descricao)) :=
  (search_filters_catalog_rows
    [("Etapa 1", [("Português", [("Material",
      [{ description := "Questões em PDF", url := "u1" },
       { description := "Apostila em Word", url := "u2" }])])])]
    ["Etapa 1_Português_Material_1_Questões em PDF"] "PDF" (by decide)).2.1
